import Mathlib

/-!
Verification development for the EKS Lambda bridge
(`src/eks-lambda/handler.py` of liavyona/lambda-eks-integration).

Strings that travel through the token-minting path are modelled as lists of
byte values (`List Nat`, each value below 256); ASCII text is mapped to its
code points by `strBytes`.
-/

set_option autoImplicit false
set_option linter.unusedVariables false

deriving instance DecidableEq for Except

namespace EksLambda

/-- Byte view of a string: the code points of its characters. For the ASCII
text handled by the token minter this coincides with UTF-8 encoding. -/
def strBytes (s : String) : List Nat :=
  s.data.map Char.toNat

/-! ### URL-safe base64 (models Python `base64.urlsafe_b64encode` / decode)

The encoder groups bytes in threes and emits one character per 6-bit group,
using the URL-safe alphabet `A-Z a-z 0-9 - _`, padding the output with `=`
(byte 61) to a multiple of four characters. -/

/-- Byte value of the URL-safe base64 character for a 6-bit group. -/
def b64CharCode (n : Nat) : Nat :=
  if n < 26 then 65 + n
  else if n < 52 then 97 + (n - 26)
  else if n < 62 then 48 + (n - 52)
  else if n = 62 then 45
  else 95

/-- Inverse of `b64CharCode` on the URL-safe alphabet. -/
def b64CharDecode (c : Nat) : Nat :=
  if 65 ≤ c ∧ c ≤ 90 then c - 65
  else if 97 ≤ c ∧ c ≤ 122 then c - 97 + 26
  else if 48 ≤ c ∧ c ≤ 57 then c - 48 + 52
  else if c = 45 then 62
  else 63

/-- Split a byte sequence into 6-bit groups (the base64 digit values). -/
def bytesToSextets : List Nat → List Nat
  | [] => []
  | [a] => [a / 4, a % 4 * 16]
  | [a, b] => [a / 4, a % 4 * 16 + b / 16, b % 16 * 4]
  | a :: b :: c :: rest =>
      a / 4 :: (a % 4 * 16 + b / 16) :: (b % 16 * 4 + c / 64) :: c % 64 ::
        bytesToSextets rest

/-- Reassemble bytes from 6-bit groups (ignoring a dangling lone group, which
a well-formed base64 stream never produces). -/
def sextetsToBytes : List Nat → List Nat
  | [] => []
  | [_] => []
  | [x, y] => [x * 4 + y / 16]
  | [x, y, z] => [x * 4 + y / 16, y % 16 * 16 + z / 4]
  | x :: y :: z :: w :: rest =>
      (x * 4 + y / 16) :: (y % 16 * 16 + z / 4) :: (z % 4 * 64 + w) ::
        sextetsToBytes rest

/-- Number of `=` padding characters base64 appends for an input length. -/
def b64PadLen (n : Nat) : Nat := (3 - n % 3) % 3

/-- Python `base64.urlsafe_b64encode`: encode bytes with the URL-safe
alphabet, padded with `=` (byte 61) to a multiple of four characters. -/
def urlsafe_b64encode (bs : List Nat) : List Nat :=
  (bytesToSextets bs).map b64CharCode ++ List.replicate (b64PadLen bs.length) 61

/-- Python `base64.urlsafe_b64decode`: drop `=` padding, map characters back
to 6-bit groups and reassemble the bytes. -/
def urlsafe_b64decode (cs : List Nat) : List Nat :=
  sextetsToBytes ((cs.filter (· ≠ 61)).map b64CharDecode)

/-- Append `=` (byte 61) until the length is a multiple of four, restoring
the padding that the token minter stripped. -/
def restorePadding (cs : List Nat) : List Nat :=
  cs ++ List.replicate ((4 - cs.length % 4) % 4) 61

/-! ### Token minter (`_get_bearer_token`, handler.py lines 72-110) -/

/-- Source constant `EKS_CLUSTER_NAME_PARAMETER` (line 20). -/
def EKS_CLUSTER_NAME_PARAMETER : String := "x-k8s-aws-id"

/-- Source constant `EKS_TOKEN_PREFIX` (line 21). -/
def EKS_TOKEN_PREFIX : String := "k8s-aws-v1."

/-- Source constant `STS_URL` (line 22) with the region formatted in, as in
`STS_URL.format(region)` on line 94. -/
def STS_URL (region : String) : String :=
  "https://sts." ++ region ++ ".amazonaws.com/?Action=GetCallerIdentity&Version=2011-06-15"

/-- Request descriptor handed to the botocore request signer. -/
structure SignParams where
  method : String
  url : String
  headers : List (String × String)

/-- The `params` dictionary built in `_get_bearer_token` (lines 92-100):
method GET, the STS GetCallerIdentity URL, and a single custom header
mapping `x-k8s-aws-id` to the cluster name. -/
def tokenSignParams (cluster_name region : String) : SignParams :=
  { method := "GET"
  , url := STS_URL region
  , headers := [(EKS_CLUSTER_NAME_PARAMETER, cluster_name)] }

/-- SigV4 presigning (botocore `RequestSigner.generate_presigned_url`,
line 102): the presigned URL is the request URL with the signature query
parameters appended. The appended part depends on credentials and clock and
is kept abstract as `sigQuery`. -/
def generate_presigned_url (p : SignParams) (sigQuery : String) : String :=
  p.url ++ sigQuery

/-- `_get_bearer_token` (lines 72-110), byte view: URL-safe base64-encode
the UTF-8 bytes of the presigned URL, remove every `=` character (the
`re.sub` on line 110), and prepend `EKS_TOKEN_PREFIX`. -/
def _get_bearer_token (cluster_name region sigQuery : String) : List Nat :=
  strBytes EKS_TOKEN_PREFIX ++
    (urlsafe_b64encode (strBytes (generate_presigned_url
      (tokenSignParams cluster_name region) sigQuery))).filter (· ≠ 61)

/-! ### Header handling in `_proxy_http_request_kubernetes_service`
(handler.py lines 147-177) -/

/-- Python string dictionaries as association lists. `dictUpdateMerge` is
the in-place effect of `d.update(h)` on `d`: keys of `h` override keys of
`d`, keys only in `d` survive. -/
def dictUpdateMerge (d h : List (String × String)) : List (String × String) :=
  d.filter (fun p => (h.lookup p.1).isNone) ++ h

/-- The value of the Python expression `d.update(h)`: `dict.update` mutates
`d` in place and evaluates to `None`, whatever its arguments. -/
def dictUpdateReturn (d h : List (String × String)) :
    Option (List (String × String)) :=
  none

/-- The `header_params` argument the proxy passes to `call_api` on
line 169: the expression that calls `update` with the caller headers on the
dictionary holding only `Accept` mapped to `*/*`, used for its value. -/
def outgoingHeaderParams (headers : List (String × String)) :
    Option (List (String × String)) :=
  dictUpdateReturn [("Accept", "*/*")] headers

/-! ### Kubernetes API client (third-party `kubernetes.client`), modelled
at the HTTP response level: the generated REST client raises
`ApiException` exactly when the response status is outside 200-299. -/

/-- Success test of the generated Kubernetes REST client. -/
def is2xx (status : Nat) : Bool :=
  200 ≤ status && status ≤ 299

/-- A Kubernetes service object, reduced to the one field the handler
reads, `metadata.name`. -/
structure V1Service where
  metadata_name : String
  deriving DecidableEq

/-- `kubernetes.client.ApiException`: carries the upstream HTTP status and
body. -/
structure ApiException where
  status : Nat
  body : String
  deriving DecidableEq

/-- `urllib3.response.HTTPResponse`, reduced to status and data. -/
structure HTTPResponse where
  status : Nat
  data : String
  deriving DecidableEq

/-- The responses the Kubernetes API server gives during one invocation:
one for the service-list call, one for the proxy call. -/
structure KubeWorld where
  listStatus : Nat
  listBody : String
  listItems : List V1Service
  proxyStatus : Nat
  proxyBody : String
  deriving DecidableEq

/-- `CoreV1Api.list_namespaced_service`: returns the item list on a 2xx
response and raises `ApiException` otherwise; an unknown namespace surfaces
as a 404 `ApiException`, never as an empty list. -/
def list_namespaced_service (w : KubeWorld) :
    Except ApiException (List V1Service) :=
  if is2xx w.listStatus then .ok w.listItems
  else .error { status := w.listStatus, body := w.listBody }

/-- `_list_namespaced_services` (lines 129-144): maps `metadata.name` over
the returned items; an `ApiException` is caught, logged and re-raised
unchanged. -/
def _list_namespaced_services (w : KubeWorld) (nspace : Option String) :
    Except ApiException (List String) :=
  match list_namespaced_service w with
  | .ok items => .ok (items.map V1Service.metadata_name)
  | .error err => .error err

/-- `ApiClient.call_api` for the proxy request (lines 166-176): a 2xx
response is returned as an `HTTPResponse`; any other status raises
`ApiException` with that status and body. -/
def call_api (w : KubeWorld)
    (header_params : Option (List (String × String))) :
    Except ApiException HTTPResponse :=
  if is2xx w.proxyStatus then .ok { status := w.proxyStatus, data := w.proxyBody }
  else .error { status := w.proxyStatus, body := w.proxyBody }

/-- The proxy resource path built on line 164. -/
def full_path (nspace : String) (service : String) (port : Nat)
    (path : String) : String :=
  "/api/v1/namespaces/" ++ nspace ++ "/services/" ++ service ++ ":" ++
    toString port ++ "/proxy/" ++ path

/-- `_proxy_http_request_kubernetes_service` (lines 147-177): one
`call_api` with the (discarded, see `outgoingHeaderParams`) header
parameters; no retry. -/
def _proxy_http_request_kubernetes_service (w : KubeWorld) (service : String)
    (port : Nat) (path : String) (nspace : Option String) (method : String)
    (headers : List (String × String)) (body : String) (timeout : Nat) :
    Except ApiException HTTPResponse :=
  call_api w (outgoingHeaderParams headers)

/-! ### Environment configuration (lines 24-38 and 184-191) -/

/-- Source constant `DEFAULT_REGION` (line 24). -/
def DEFAULT_REGION : String := "eu-central-1"

/-- Source constant `DEFAULT_SERVICE_PORT` (line 25). -/
def DEFAULT_SERVICE_PORT : Nat := 8080

/-- Source constant `DEFAULT_SERVICE_REQUEST_TIMEOUT` (line 26). -/
def DEFAULT_SERVICE_REQUEST_TIMEOUT : Nat := 30

/-- Source constant `DEFAULT_SERVICE_REQUEST_METHOD` (line 27). -/
def DEFAULT_SERVICE_REQUEST_METHOD : String := "GET"

/-- Source constant `DEFAULT_SERVICE_REQUEST_PATH` (line 28). -/
def DEFAULT_SERVICE_REQUEST_PATH : String := "hello"

/-- Source constant `CLUSTER_NAME_ENV` (line 31). -/
def CLUSTER_NAME_ENV : String := "CLUSTER_NAME"

/-- Source constant `CLUSTER_REGION_ENV` (line 32). -/
def CLUSTER_REGION_ENV : String := "CLUSTER_REGION"

/-- Source constant `SERVICE_NAMESPACE_ENV` (line 33). -/
def SERVICE_NAMESPACE_ENV : String := "SERVICE_NAMESPACE"

/-- Source constant `SERVICE_NAME_ENV` (line 34). -/
def SERVICE_NAME_ENV : String := "SERVICE_NAME"

/-- Source constant `SERVICE_PORT_ENV` (line 35). -/
def SERVICE_PORT_ENV : String := "SERVICE_PORT"

/-- Source constant `SERVICE_REQUEST_TIMEOUT_ENV` (line 36). -/
def SERVICE_REQUEST_TIMEOUT_ENV : String := "SERVICE_REQUEST_TIMEOUT"

/-- Source constant `SERVICE_REQUEST_METHOD_ENV` (line 37). -/
def SERVICE_REQUEST_METHOD_ENV : String := "SERVICE_REQUEST_METHOD"

/-- Source constant `SERVICE_REQUEST_PATH_ENV` (line 38). -/
def SERVICE_REQUEST_PATH_ENV : String := "SERVICE_REQUEST_PATH"

/-- `os.environ.get(k)`: the process environment as an association list,
first binding wins, `none` when the variable is absent. -/
def envGet (env : List (String × String)) (k : String) : Option String :=
  (env.find? (fun p => p.1 == k)).map (fun p => p.2)

/-- Python `int(...)` on a decimal string; `none` models the `ValueError`
raised on a non-numeric string. -/
def pyInt (s : String) : Option Nat := s.toNat?

/-- The per-invocation configuration the handler reads from the
environment. `cluster_name`, `service` and `nspace` keep the `Option` of
`os.environ.get` without a default, `none` when absent; `nspace` stands
for the Python variable `namespace`, a reserved word here. -/
structure LambdaConfig where
  cluster_name : Option String
  cluster_region : String
  service : Option String
  port : Nat
  nspace : Option String
  request_method : String
  request_path : String
  request_timeout : Nat
  deriving DecidableEq

/-- Lines 184-191: read the configuration. A non-numeric `SERVICE_PORT` or
`SERVICE_REQUEST_TIMEOUT` raises `ValueError` inside `int(...)`, modelled
as `.error` carrying the offending string; the port is parsed first, as in
the source. -/
def readConfig (env : List (String × String)) : Except String LambdaConfig :=
  let portRes : Except String Nat :=
    match envGet env SERVICE_PORT_ENV with
    | none => .ok DEFAULT_SERVICE_PORT
    | some s =>
      match pyInt s with
      | some n => .ok n
      | none => .error s
  let timeoutRes : Except String Nat :=
    match envGet env SERVICE_REQUEST_TIMEOUT_ENV with
    | none => .ok DEFAULT_SERVICE_REQUEST_TIMEOUT
    | some s =>
      match pyInt s with
      | some n => .ok n
      | none => .error s
  match portRes, timeoutRes with
  | .error s, _ => .error s
  | .ok _, .error s => .error s
  | .ok p, .ok t =>
    .ok { cluster_name := envGet env CLUSTER_NAME_ENV
        , cluster_region := (envGet env CLUSTER_REGION_ENV).getD DEFAULT_REGION
        , service := envGet env SERVICE_NAME_ENV
        , port := p
        , nspace := envGet env SERVICE_NAMESPACE_ENV
        , request_method :=
            (envGet env SERVICE_REQUEST_METHOD_ENV).getD DEFAULT_SERVICE_REQUEST_METHOD
        , request_path :=
            (envGet env SERVICE_REQUEST_PATH_ENV).getD DEFAULT_SERVICE_REQUEST_PATH
        , request_timeout := t }

/-! ### Handler orchestration (lines 180-225) -/

/-- External calls the handler can perform, in program order.
`presignedUrlFetch` names the one call the code never contains:
dereferencing the presigned STS URL embedded in the token. -/
inductive ExtCall where
  | describeCluster (name : Option String) (region : String)
  | stsGetCallerIdentity
  | listServices (nspace : Option String)
  | proxyRequest (service : String) (port : Nat) (path : String)
      (nspace : Option String) (method : String)
  | presignedUrlFetch (url : String)
  deriving DecidableEq

/-- Failure outcomes of one invocation. `serviceNotFound` models the
`ValueError` raised on line 204, carrying the offending service and
namespace; `assertionError` models a failure of the `assert` on line 215;
`api` propagates a Kubernetes `ApiException`; `intParseError` models the
`ValueError` of `int(...)` while reading configuration. -/
inductive HError where
  | api (err : ApiException)
  | serviceNotFound (service : Option String) (nspace : Option String)
  | assertionError
  | intParseError (s : String)
  deriving DecidableEq

/-- The dictionary returned on lines 216-225. -/
structure HResult where
  lambda_request_id : String
  lambda_arn : String
  status_code : Nat
  event : String
  response_status : Nat
  response_data : String
  deriving DecidableEq

/-- The pieces of the Lambda context object the handler reads. -/
structure LambdaContext where
  aws_request_id : String
  invoked_function_arn : String
  deriving DecidableEq

/-- Observable outcome of one invocation: the external calls made in
order, the returned value or raised error, and whether the temporary CA
certificate file still exists after the invocation completed. -/
structure RunOutcome where
  calls : List ExtCall
  result : Except HError HResult
  caTempFileRemains : Bool
  deriving DecidableEq

/-- The body of `handler` after configuration reading (lines 192-225).
`describe_cluster` (via `_get_cluster_info`, line 194), the CA decode
(line 196) and the STS `get_caller_identity` call inside
`_get_bearer_token` (line 81) happen before the `with NamedTemporaryFile`
block; in the source any of them can raise, aborting the invocation
before the temporary CA file is created and before any Kubernetes call.
Those early aborts are not modelled as separate outcomes here, and no
theorem below relies on their success: trace statements are bounds that
also hold on every truncation of the trace at one of those points. The
`with` block deletes the temporary CA file on every exit, normal or
raising, so `caTempFileRemains` is `false` on every path. The membership
test `service not in available_services` is false for the Python `None`,
hence the match on `cfg.service`. -/
def handlerCore (cfg : LambdaConfig) (w : KubeWorld) (ctx : LambdaContext)
    (event : String) : RunOutcome :=
  let callsList := [ExtCall.describeCluster cfg.cluster_name cfg.cluster_region,
                    ExtCall.stsGetCallerIdentity,
                    ExtCall.listServices cfg.nspace]
  match _list_namespaced_services w cfg.nspace with
  | .error err =>
      { calls := callsList, result := .error (.api err), caTempFileRemains := false }
  | .ok available =>
    match cfg.service with
    | some s =>
      if s ∈ available then
        let callsProxy := callsList ++
          [ExtCall.proxyRequest s cfg.port cfg.request_path cfg.nspace cfg.request_method]
        match _proxy_http_request_kubernetes_service w s cfg.port
            cfg.request_path cfg.nspace cfg.request_method [] event
            cfg.request_timeout with
        | .error err =>
            { calls := callsProxy, result := .error (.api err), caTempFileRemains := false }
        | .ok resp =>
          if resp.status = 200 then
            { calls := callsProxy
            , result := .ok { lambda_request_id := ctx.aws_request_id
                            , lambda_arn := ctx.invoked_function_arn
                            , status_code := 200
                            , event := event
                            , response_status := resp.status
                            , response_data := resp.data }
            , caTempFileRemains := false }
          else
            { calls := callsProxy
            , result := .error .assertionError
            , caTempFileRemains := false }
      else
        { calls := callsList
        , result := .error (.serviceNotFound (some s) cfg.nspace)
        , caTempFileRemains := false }
    | none =>
        { calls := callsList
        , result := .error (.serviceNotFound none cfg.nspace)
        , caTempFileRemains := false }

/-- `handler` (lines 180-225): read the configuration, then run the body.
A configuration `ValueError` aborts before any external call and before
the temporary CA file is created. -/
def handler (env : List (String × String)) (w : KubeWorld)
    (ctx : LambdaContext) (event : String) : RunOutcome :=
  match readConfig env with
  | .error s =>
      { calls := [], result := .error (.intParseError s), caTempFileRemains := false }
  | .ok cfg => handlerCore cfg w ctx event

/-! ### Concrete fixtures -/

/-- Environment of the nominal scenario. -/
def envOk : List (String × String) :=
  [("CLUSTER_NAME", "demo"), ("SERVICE_NAME", "hello-svc"),
   ("SERVICE_NAMESPACE", "default")]

/-- Configuration of the nominal scenario (what `readConfig envOk` yields). -/
def cfgOk : LambdaConfig :=
  { cluster_name := some "demo", cluster_region := "eu-central-1"
  , service := some "hello-svc", port := 8080, nspace := some "default"
  , request_method := "GET", request_path := "hello", request_timeout := 30 }

/-- Same configuration but targeting a service absent from the namespace. -/
def cfgMissing : LambdaConfig := { cfgOk with service := some "missing-svc" }

/-- A concrete Lambda context. -/
def ctx0 : LambdaContext :=
  { aws_request_id := "req-1", invoked_function_arn := "arn-1" }

/-- API server responses of the nominal scenario. -/
def wOk : KubeWorld :=
  { listStatus := 200, listBody := "", listItems := [{ metadata_name := "hello-svc" }]
  , proxyStatus := 200, proxyBody := "ok" }

/-- Service listing fails with a 500. -/
def wList500 : KubeWorld := { wOk with listStatus := 500, listBody := "boom" }

/-- Proxying fails with a 502. -/
def wProxy502 : KubeWorld := { wOk with proxyStatus := 502, proxyBody := "bad gateway" }

/-- Proxying answers 201, a 2xx status other than 200. -/
def wProxy201 : KubeWorld := { wOk with proxyStatus := 201 }

/-- Namespace holding exactly the services named a and b. -/
def wAB : KubeWorld :=
  { wOk with listItems := [{ metadata_name := "a" }, { metadata_name := "b" }] }

/-- Namespace holding no services at all. -/
def wEmptyNs : KubeWorld := { wOk with listItems := [] }

/-- Unknown namespace: the list call answers 404. -/
def w404 : KubeWorld := { wOk with listStatus := 404, listBody := "namespace not found" }

/-- The configuration read from an empty environment: every default. -/
def cfgDefault : LambdaConfig :=
  { cluster_name := none, cluster_region := "eu-central-1"
  , service := none, port := 8080, nspace := none
  , request_method := "GET", request_path := "hello", request_timeout := 30 }

/-! ## Theorems -/

/-- C2 (refuting the claimed merge): with caller headers holding X-Test,
the header parameters actually passed to `call_api` are `None` — the value
of the Python `update` call — not the merge of the fixed Accept header
with the caller headers; the merge that the in-place update computes, and
that the spec intends, is also exhibited. -/
theorem c2_header_params_are_none :
    outgoingHeaderParams [("X-Test", "1")] = none ∧
    dictUpdateMerge [("Accept", "*/*")] [("X-Test", "1")] =
      [("Accept", "*/*"), ("X-Test", "1")] ∧
    outgoingHeaderParams [("X-Test", "1")] ≠
      some (dictUpdateMerge [("Accept", "*/*")] [("X-Test", "1")]) :=
  ⟨rfl, by decide, by decide⟩

/-- C6: on every exit path — success, any typed failure after the
authenticated session is established, or a configuration fault before it —
the temporary CA certificate file is gone once the invocation completes. -/
theorem c6_ca_temp_file_deleted (env : List (String × String)) (w : KubeWorld)
    (ctx : LambdaContext) (event : String) :
    (handler env w ctx event).caTempFileRemains = false := by
  unfold handler
  split
  · rfl
  · unfold handlerCore
    split
    · rfl
    · split
      · split
        · split
          · rfl
          · split
            · rfl
            · rfl
        · rfl
      · rfl

theorem strBytes_append (a b : String) :
    strBytes (a ++ b) = strBytes a ++ strBytes b := by
  simp [strBytes]

theorem b64CharDecode_b64CharCode {n : Nat} (h : n < 64) :
    b64CharDecode (b64CharCode n) = n := by
  unfold b64CharCode b64CharDecode
  split_ifs <;> omega

theorem b64CharCode_ne_61 (n : Nat) : b64CharCode n ≠ 61 := by
  unfold b64CharCode
  split_ifs <;> omega

theorem bytesToSextets_lt_64 :
    ∀ bs : List Nat, (∀ b ∈ bs, b < 256) → ∀ s ∈ bytesToSextets bs, s < 64
  | [], _, s, hs => by simp [bytesToSextets] at hs
  | [a], h, s, hs => by
      have ha := h a (by simp)
      simp [bytesToSextets] at hs
      rcases hs with hs | hs <;> omega
  | [a, b], h, s, hs => by
      have ha := h a (by simp)
      have hb := h b (by simp)
      simp [bytesToSextets] at hs
      rcases hs with hs | hs | hs <;> omega
  | a :: b :: c :: rest, h, s, hs => by
      have ha := h a (by simp)
      have hb := h b (by simp)
      have hc := h c (by simp)
      simp only [bytesToSextets, List.mem_cons] at hs
      rcases hs with hs | hs | hs | hs | hs
      · omega
      · omega
      · omega
      · omega
      · exact bytesToSextets_lt_64 rest (fun x hx => h x (by simp [hx])) s hs

theorem sextetsToBytes_bytesToSextets :
    ∀ bs : List Nat, (∀ b ∈ bs, b < 256) →
      sextetsToBytes (bytesToSextets bs) = bs
  | [], _ => rfl
  | [a], h => by
      have ha := h a (by simp)
      simp only [bytesToSextets, sextetsToBytes, List.cons.injEq, and_true]
      omega
  | [a, b], h => by
      have ha := h a (by simp)
      have hb := h b (by simp)
      simp only [bytesToSextets, sextetsToBytes, List.cons.injEq, and_true]
      omega
  | a :: b :: c :: rest, h => by
      have ha := h a (by simp)
      have hb := h b (by simp)
      have hc := h c (by simp)
      have ih := sextetsToBytes_bytesToSextets rest (fun x hx => h x (by simp [hx]))
      cases hrest : bytesToSextets rest with
      | nil =>
          rw [hrest] at ih
          simp only [bytesToSextets, hrest, sextetsToBytes, List.cons.injEq]
          refine ⟨by omega, by omega, by omega, ?_⟩
          simpa [sextetsToBytes] using ih
      | cons s ss =>
          rw [hrest] at ih
          simp only [bytesToSextets, hrest, sextetsToBytes, List.cons.injEq]
          exact ⟨by omega, by omega, by omega, ih⟩

/-- Decoding after restoring padding inverts the encoder with its padding
stripped, for genuine byte inputs. -/
theorem urlsafe_b64_roundtrip (bs : List Nat) (h : ∀ b ∈ bs, b < 256) :
    urlsafe_b64decode
      (restorePadding ((urlsafe_b64encode bs).filter (· ≠ 61))) = bs := by
  have hmap : ((bytesToSextets bs).map b64CharCode).filter (· ≠ 61) =
      (bytesToSextets bs).map b64CharCode := by
    apply List.filter_eq_self.2
    intro c hc
    rcases List.mem_map.1 hc with ⟨s, _, rfl⟩
    simpa using b64CharCode_ne_61 s
  have henc : (urlsafe_b64encode bs).filter (· ≠ 61) =
      (bytesToSextets bs).map b64CharCode := by
    simp only [urlsafe_b64encode, List.filter_append, hmap]
    simp [List.filter_replicate]
  rw [henc]
  unfold urlsafe_b64decode restorePadding
  rw [List.filter_append, hmap]
  have hpad : (List.replicate ((4 - ((bytesToSextets bs).map b64CharCode).length % 4) % 4) 61).filter
      (fun c => decide (c ≠ 61)) = [] := by
    simp [List.filter_replicate]
  rw [hpad, List.append_nil, List.map_map]
  have hdec : ((bytesToSextets bs).map (b64CharDecode ∘ b64CharCode)) =
      bytesToSextets bs := by
    have := List.map_congr_left
      (fun s hs => b64CharDecode_b64CharCode (bytesToSextets_lt_64 bs h s hs))
    simpa using this
  rw [hdec]
  exact sextetsToBytes_bytesToSextets bs h

/-- C1: for every cluster name, region and signature suffix, the minted
bearer token starts with the literal `k8s-aws-v1.`, contains no `=` byte,
URL-safe base64-decoding its suffix after restoring padding reproduces the
signed URL, that URL contains the query parameter `Action=GetCallerIdentity`,
and the request that was signed carried exactly one custom header, mapping
`x-k8s-aws-id` to the cluster name. -/
theorem c1_bearer_token_format (cluster_name region sigQuery : String)
    (h : ∀ b ∈ strBytes (generate_presigned_url
      (tokenSignParams cluster_name region) sigQuery), b < 256) :
    strBytes EKS_TOKEN_PREFIX <+: _get_bearer_token cluster_name region sigQuery ∧
    61 ∉ _get_bearer_token cluster_name region sigQuery ∧
    urlsafe_b64decode (restorePadding
      ((_get_bearer_token cluster_name region sigQuery).drop
        (strBytes EKS_TOKEN_PREFIX).length)) =
      strBytes (generate_presigned_url (tokenSignParams cluster_name region) sigQuery) ∧
    strBytes "Action=GetCallerIdentity" <:+:
      strBytes (generate_presigned_url (tokenSignParams cluster_name region) sigQuery) ∧
    (tokenSignParams cluster_name region).headers =
      [(EKS_CLUSTER_NAME_PARAMETER, cluster_name)] := by
  refine ⟨⟨_, rfl⟩, ?_, ?_, ?_, rfl⟩
  · intro hmem
    rcases List.mem_append.1 hmem with hp | hf
    · revert hp
      decide
    · have := List.of_mem_filter hf
      simp at this
  · unfold _get_bearer_token
    rw [List.drop_left]
    exact urlsafe_b64_roundtrip _ h
  · have hsplit : strBytes (generate_presigned_url
        (tokenSignParams cluster_name region) sigQuery) =
        (strBytes "https://sts." ++ strBytes region ++ strBytes ".amazonaws.com/?") ++
          strBytes "Action=GetCallerIdentity" ++
          (strBytes "&Version=2011-06-15" ++ strBytes sigQuery) := by
      show strBytes (("https://sts." ++ region ++
        ".amazonaws.com/?Action=GetCallerIdentity&Version=2011-06-15") ++ sigQuery) = _
      rw [strBytes_append, strBytes_append, strBytes_append]
      have hlit : strBytes ".amazonaws.com/?Action=GetCallerIdentity&Version=2011-06-15" =
          strBytes ".amazonaws.com/?" ++ strBytes "Action=GetCallerIdentity" ++
            strBytes "&Version=2011-06-15" := by decide
      rw [hlit]
      simp [List.append_assoc]
    rw [hsplit]
    exact ⟨_, _, rfl⟩

theorem c1_bearer_token_format_witness :
    strBytes EKS_TOKEN_PREFIX <+: _get_bearer_token "demo" "eu-central-1" "&sig=ab" ∧
    61 ∉ _get_bearer_token "demo" "eu-central-1" "&sig=ab" ∧
    urlsafe_b64decode (restorePadding
      ((_get_bearer_token "demo" "eu-central-1" "&sig=ab").drop
        (strBytes EKS_TOKEN_PREFIX).length)) =
      strBytes (generate_presigned_url (tokenSignParams "demo" "eu-central-1") "&sig=ab") ∧
    strBytes "Action=GetCallerIdentity" <:+:
      strBytes (generate_presigned_url (tokenSignParams "demo" "eu-central-1") "&sig=ab") ∧
    (tokenSignParams "demo" "eu-central-1").headers =
      [(EKS_CLUSTER_NAME_PARAMETER, "demo")] :=
  c1_bearer_token_format "demo" "eu-central-1" "&sig=ab" (by decide)

/-- Branch equations for `handler` and `handlerCore`, used to settle the
orchestration claims. -/
theorem handler_config_error (env : List (String × String)) (w : KubeWorld)
    (ctx : LambdaContext) (event : String) (s : String)
    (h : readConfig env = .error s) :
    handler env w ctx event =
      { calls := [], result := .error (.intParseError s), caTempFileRemains := false } := by
  unfold handler
  rw [h]

theorem handler_config_ok (env : List (String × String)) (cfg : LambdaConfig)
    (w : KubeWorld) (ctx : LambdaContext) (event : String)
    (h : readConfig env = .ok cfg) :
    handler env w ctx event = handlerCore cfg w ctx event := by
  unfold handler
  rw [h]

/-- The three calls every run that reaches the cluster performs before any
proxying. -/
def callsBase (cfg : LambdaConfig) : List ExtCall :=
  [ExtCall.describeCluster cfg.cluster_name cfg.cluster_region,
   ExtCall.stsGetCallerIdentity,
   ExtCall.listServices cfg.nspace]

theorem handlerCore_list_error (cfg : LambdaConfig) (w : KubeWorld)
    (ctx : LambdaContext) (event : String) (err : ApiException)
    (h : _list_namespaced_services w cfg.nspace = .error err) :
    handlerCore cfg w ctx event =
      { calls := callsBase cfg, result := .error (.api err), caTempFileRemains := false } := by
  unfold handlerCore
  rw [h]
  rfl

theorem handlerCore_service_none (cfg : LambdaConfig) (w : KubeWorld)
    (ctx : LambdaContext) (event : String) (available : List String)
    (h : _list_namespaced_services w cfg.nspace = .ok available)
    (hs : cfg.service = none) :
    handlerCore cfg w ctx event =
      { calls := callsBase cfg, result := .error (.serviceNotFound none cfg.nspace)
      , caTempFileRemains := false } := by
  unfold handlerCore
  rw [h, hs]
  rfl

theorem handlerCore_service_absent (cfg : LambdaConfig) (w : KubeWorld)
    (ctx : LambdaContext) (event : String) (available : List String) (s : String)
    (h : _list_namespaced_services w cfg.nspace = .ok available)
    (hs : cfg.service = some s) (hin : s ∉ available) :
    handlerCore cfg w ctx event =
      { calls := callsBase cfg
      , result := .error (.serviceNotFound (some s) cfg.nspace)
      , caTempFileRemains := false } := by
  unfold handlerCore
  rw [h, hs]
  dsimp only
  rw [if_neg hin]
  rfl

theorem handlerCore_proxy_error (cfg : LambdaConfig) (w : KubeWorld)
    (ctx : LambdaContext) (event : String) (available : List String)
    (s : String) (err : ApiException)
    (h : _list_namespaced_services w cfg.nspace = .ok available)
    (hs : cfg.service = some s) (hin : s ∈ available)
    (hp : _proxy_http_request_kubernetes_service w s cfg.port cfg.request_path
      cfg.nspace cfg.request_method [] event cfg.request_timeout = .error err) :
    handlerCore cfg w ctx event =
      { calls := callsBase cfg ++
          [ExtCall.proxyRequest s cfg.port cfg.request_path cfg.nspace cfg.request_method]
      , result := .error (.api err), caTempFileRemains := false } := by
  unfold handlerCore
  rw [h, hs]
  dsimp only
  rw [if_pos hin, hp]
  rfl

theorem handlerCore_proxy_ok (cfg : LambdaConfig) (w : KubeWorld)
    (ctx : LambdaContext) (event : String) (available : List String)
    (s : String) (resp : HTTPResponse)
    (h : _list_namespaced_services w cfg.nspace = .ok available)
    (hs : cfg.service = some s) (hin : s ∈ available)
    (hp : _proxy_http_request_kubernetes_service w s cfg.port cfg.request_path
      cfg.nspace cfg.request_method [] event cfg.request_timeout = .ok resp) :
    handlerCore cfg w ctx event =
      { calls := callsBase cfg ++
          [ExtCall.proxyRequest s cfg.port cfg.request_path cfg.nspace cfg.request_method]
      , result := if resp.status = 200 then
          .ok { lambda_request_id := ctx.aws_request_id
              , lambda_arn := ctx.invoked_function_arn
              , status_code := 200
              , event := event
              , response_status := resp.status
              , response_data := resp.data }
        else .error .assertionError
      , caTempFileRemains := false } := by
  unfold handlerCore
  rw [h, hs]
  dsimp only
  rw [if_pos hin, hp]
  dsimp only
  split <;> rfl

theorem handlerCore_calls_of_found (cfg : LambdaConfig) (w : KubeWorld)
    (ctx : LambdaContext) (event : String) (available : List String) (s : String)
    (h : _list_namespaced_services w cfg.nspace = .ok available)
    (hs : cfg.service = some s) (hin : s ∈ available) :
    (handlerCore cfg w ctx event).calls = callsBase cfg ++
      [ExtCall.proxyRequest s cfg.port cfg.request_path cfg.nspace cfg.request_method] := by
  cases hp : _proxy_http_request_kubernetes_service w s cfg.port cfg.request_path
      cfg.nspace cfg.request_method [] event cfg.request_timeout with
  | error err => rw [handlerCore_proxy_error cfg w ctx event available s err h hs hin hp]
  | ok resp => rw [handlerCore_proxy_ok cfg w ctx event available s resp h hs hin hp]

/-- C3: whenever an invocation performs a proxy call, the configured
target service name is a member of the most recent (and only)
service-listing result for the configured namespace; when the name is
absent the invocation fails without attempting the proxy call. -/
theorem c3_proxy_only_after_validation
    (env : List (String × String)) (w : KubeWorld) (ctx : LambdaContext)
    (event : String) (s : String) (p : Nat) (pa : String)
    (ns : Option String) (m : String)
    (hmem : ExtCall.proxyRequest s p pa ns m ∈ (handler env w ctx event).calls) :
    ∃ cfg names, readConfig env = .ok cfg ∧ cfg.service = some s ∧
      ns = cfg.nspace ∧
      _list_namespaced_services w cfg.nspace = .ok names ∧ s ∈ names := by
  cases hcfg : readConfig env with
  | error e =>
      rw [handler_config_error env w ctx event e hcfg] at hmem
      simp at hmem
  | ok cfg =>
      rw [handler_config_ok env cfg w ctx event hcfg] at hmem
      cases hl : _list_namespaced_services w cfg.nspace with
      | error err =>
          rw [handlerCore_list_error cfg w ctx event err hl] at hmem
          simp [callsBase] at hmem
      | ok available =>
          cases hs : cfg.service with
          | none =>
              rw [handlerCore_service_none cfg w ctx event available hl hs] at hmem
              simp [callsBase] at hmem
          | some s0 =>
              by_cases hin : s0 ∈ available
              · rw [handlerCore_calls_of_found cfg w ctx event available s0 hl hs hin] at hmem
                simp [callsBase] at hmem
                rcases hmem with ⟨hs1, hp1, hpa1, hns1, hm1⟩
                exact ⟨cfg, available, rfl, hs1 ▸ hs, hns1, hl, hs1 ▸ hin⟩
              · rw [handlerCore_service_absent cfg w ctx event available s0 hl hs hin] at hmem
                simp [callsBase] at hmem

theorem c3_proxy_only_after_validation_witness :
    ∃ cfg names, readConfig envOk = .ok cfg ∧ cfg.service = some "hello-svc" ∧
      (some "default" : Option String) = cfg.nspace ∧
      _list_namespaced_services wOk cfg.nspace = .ok names ∧ "hello-svc" ∈ names :=
  c3_proxy_only_after_validation envOk wOk ctx0 "ev" "hello-svc" 8080 "hello"
    (some "default") "GET" (by decide)

/-- Every run performs either no external call (configuration fault), the
three base calls, or the three base calls followed by one proxy call. -/
theorem handler_calls_shape (env : List (String × String)) (w : KubeWorld)
    (ctx : LambdaContext) (event : String) :
    (∃ e, readConfig env = .error e ∧ (handler env w ctx event).calls = []) ∨
    (∃ cfg, readConfig env = .ok cfg ∧
      ((handler env w ctx event).calls = callsBase cfg ∨
       ∃ s, (handler env w ctx event).calls = callsBase cfg ++
         [ExtCall.proxyRequest s cfg.port cfg.request_path cfg.nspace
           cfg.request_method])) := by
  cases hcfg : readConfig env with
  | error e =>
      left
      exact ⟨e, rfl, by rw [handler_config_error env w ctx event e hcfg]⟩
  | ok cfg =>
      right
      refine ⟨cfg, rfl, ?_⟩
      rw [handler_config_ok env cfg w ctx event hcfg]
      cases hl : _list_namespaced_services w cfg.nspace with
      | error err =>
          left
          rw [handlerCore_list_error cfg w ctx event err hl]
      | ok available =>
          cases hs : cfg.service with
          | none =>
              left
              rw [handlerCore_service_none cfg w ctx event available hl hs]
          | some s0 =>
              by_cases hin : s0 ∈ available
              · right
                exact ⟨s0, by
                  rw [handlerCore_calls_of_found cfg w ctx event available s0 hl hs hin]⟩
              · left
                rw [handlerCore_service_absent cfg w ctx event available s0 hl hs hin]

/-- C4 counterexample: on a concrete invocation the handler does perform a
direct AWS STS call — the `get_caller_identity` logging call on line 81 —
refuting the claim that the system never calls STS directly. -/
theorem c4_no_direct_sts_counterexample :
    ExtCall.stsGetCallerIdentity ∈ (handler envOk wOk ctx0 "ev").calls := by
  decide

/-- C4 amended: the presigned GetCallerIdentity URL embedded in the token
is never dereferenced by the system itself; the invocation makes at most
one direct STS call — the `get_caller_identity` logging call on line 81
inside the token minter — and no other. (In the source, `describe_cluster`
on line 194 or the CA decode on line 196 can raise before line 81 runs, so
an invocation need not reach that call; hence at most one, not exactly
one.) -/
theorem c4_sts_usage (env : List (String × String)) (w : KubeWorld)
    (ctx : LambdaContext) (event : String) :
    (∀ u, ExtCall.presignedUrlFetch u ∉ (handler env w ctx event).calls) ∧
    (handler env w ctx event).calls.count ExtCall.stsGetCallerIdentity ≤ 1 := by
  rcases handler_calls_shape env w ctx event with ⟨e, he, hnil⟩ |
    ⟨cfg, hcfg, hbase | ⟨s, hproxy⟩⟩
  · constructor
    · intro u hu
      rw [hnil] at hu
      simp at hu
    · rw [hnil]
      simp
  · constructor
    · intro u hu
      rw [hbase] at hu
      simp [callsBase] at hu
    · rw [hbase]
      simp [callsBase, List.count_cons, List.count_nil]
  · constructor
    · intro u hu
      rw [hproxy] at hu
      simp [callsBase] at hu
    · rw [hproxy]
      simp [callsBase, List.count_cons, List.count_nil, List.count_append]

theorem c4_sts_usage_witness :
    (∀ u, ExtCall.presignedUrlFetch u ∉ (handler envOk wOk ctx0 "ev").calls) ∧
    (handler envOk wOk ctx0 "ev").calls.count ExtCall.stsGetCallerIdentity ≤ 1 :=
  c4_sts_usage envOk wOk ctx0 "ev"

/-- C5: when the service listing succeeds and the configured target
service is not among the returned names (in particular when it is unset),
the invocation fails with the dedicated not-found error carrying the
offending service and namespace, and no proxy call is performed. -/
theorem c5_service_not_found (cfg : LambdaConfig) (w : KubeWorld)
    (ctx : LambdaContext) (event : String)
    (hl : is2xx w.listStatus = true)
    (habs : ∀ n ∈ w.listItems.map V1Service.metadata_name, cfg.service ≠ some n) :
    (handlerCore cfg w ctx event).result =
      .error (.serviceNotFound cfg.service cfg.nspace) ∧
    ∀ s p pa ns m,
      ExtCall.proxyRequest s p pa ns m ∉ (handlerCore cfg w ctx event).calls := by
  have hlist : _list_namespaced_services w cfg.nspace =
      .ok (w.listItems.map V1Service.metadata_name) := by
    unfold _list_namespaced_services list_namespaced_service
    rw [hl]
    rfl
  cases hs : cfg.service with
  | none =>
      rw [handlerCore_service_none cfg w ctx event _ hlist hs, ← hs]
      exact ⟨rfl, by intro s p pa ns m hmem; simp [callsBase] at hmem⟩
  | some s0 =>
      have hin : s0 ∉ w.listItems.map V1Service.metadata_name := by
        intro hmem
        exact habs s0 hmem hs
      rw [handlerCore_service_absent cfg w ctx event _ s0 hlist hs hin, ← hs]
      exact ⟨rfl, by intro s p pa ns m hmem; simp [callsBase] at hmem⟩

theorem c5_service_not_found_witness :
    is2xx wOk.listStatus = true ∧
    ((handlerCore cfgMissing wOk ctx0 "ev").result =
      .error (.serviceNotFound cfgMissing.service cfgMissing.nspace) ∧
    ∀ s p pa ns m,
      ExtCall.proxyRequest s p pa ns m ∉ (handlerCore cfgMissing wOk ctx0 "ev").calls) :=
  ⟨by decide,
   c5_service_not_found cfgMissing wOk ctx0 "ev" (by decide) (by decide)⟩

theorem list_services_ok (w : KubeWorld) (ns : Option String)
    (h2 : is2xx w.listStatus = true) :
    _list_namespaced_services w ns =
      .ok (w.listItems.map V1Service.metadata_name) := by
  unfold _list_namespaced_services list_namespaced_service
  rw [h2]
  rfl

theorem list_services_error (w : KubeWorld) (ns : Option String)
    (h2 : is2xx w.listStatus = false) :
    _list_namespaced_services w ns =
      .error { status := w.listStatus, body := w.listBody } := by
  unfold _list_namespaced_services list_namespaced_service
  rw [h2]
  rfl

theorem proxy_request_ok (w : KubeWorld) (s : String) (port : Nat)
    (path : String) (ns : Option String) (m : String)
    (hdrs : List (String × String)) (body : String) (t : Nat)
    (h2 : is2xx w.proxyStatus = true) :
    _proxy_http_request_kubernetes_service w s port path ns m hdrs body t =
      .ok { status := w.proxyStatus, data := w.proxyBody } := by
  unfold _proxy_http_request_kubernetes_service call_api
  rw [h2]
  rfl

theorem proxy_request_error (w : KubeWorld) (s : String) (port : Nat)
    (path : String) (ns : Option String) (m : String)
    (hdrs : List (String × String)) (body : String) (t : Nat)
    (h2 : is2xx w.proxyStatus = false) :
    _proxy_http_request_kubernetes_service w s port path ns m hdrs body t =
      .error { status := w.proxyStatus, body := w.proxyBody } := by
  unfold _proxy_http_request_kubernetes_service call_api
  rw [h2]
  rfl

/-- The calls of one orchestration are either the three base calls or the
base calls followed by one proxy call. -/
theorem handlerCore_calls_shape (cfg : LambdaConfig) (w : KubeWorld)
    (ctx : LambdaContext) (event : String) :
    (handlerCore cfg w ctx event).calls = callsBase cfg ∨
    ∃ s, (handlerCore cfg w ctx event).calls = callsBase cfg ++
      [ExtCall.proxyRequest s cfg.port cfg.request_path cfg.nspace
        cfg.request_method] := by
  cases hl : _list_namespaced_services w cfg.nspace with
  | error err =>
      left
      rw [handlerCore_list_error cfg w ctx event err hl]
  | ok available =>
      cases hs : cfg.service with
      | none =>
          left
          rw [handlerCore_service_none cfg w ctx event available hl hs]
      | some s0 =>
          by_cases hin : s0 ∈ available
          · right
            exact ⟨s0, by
              rw [handlerCore_calls_of_found cfg w ctx event available s0 hl hs hin]⟩
          · left
            rw [handlerCore_service_absent cfg w ctx event available s0 hl hs hin]

/-- C7: a non-2xx from the service listing aborts the invocation with the
propagated `ApiException` carrying the upstream status and body, and no
proxy call happens; a non-2xx from the proxy call aborts it the same way;
and no external call is ever repeated — no retry and no backoff. -/
theorem c7_upstream_errors_fatal (cfg : LambdaConfig) (w : KubeWorld)
    (ctx : LambdaContext) (event : String) :
    (is2xx w.listStatus = false →
      (handlerCore cfg w ctx event).result =
        .error (.api { status := w.listStatus, body := w.listBody }) ∧
      ∀ s p pa ns m,
        ExtCall.proxyRequest s p pa ns m ∉ (handlerCore cfg w ctx event).calls) ∧
    (∀ s, cfg.service = some s →
      is2xx w.listStatus = true →
      s ∈ w.listItems.map V1Service.metadata_name →
      is2xx w.proxyStatus = false →
      (handlerCore cfg w ctx event).result =
        .error (.api { status := w.proxyStatus, body := w.proxyBody })) ∧
    (handlerCore cfg w ctx event).calls.Nodup := by
  refine ⟨?_, ?_, ?_⟩
  · intro h2
    rw [handlerCore_list_error cfg w ctx event _ (list_services_error w cfg.nspace h2)]
    refine ⟨rfl, ?_⟩
    intro s p pa ns m hmem
    simp [callsBase] at hmem
  · intro s hs h2 hmem hp2
    rw [handlerCore_proxy_error cfg w ctx event _ s _
      (list_services_ok w cfg.nspace h2) hs hmem
      (proxy_request_error w s cfg.port cfg.request_path cfg.nspace
        cfg.request_method [] event cfg.request_timeout hp2)]
  · rcases handlerCore_calls_shape cfg w ctx event with hbase | ⟨s, hproxy⟩
    · rw [hbase]
      simp [callsBase]
    · rw [hproxy]
      simp [callsBase]

theorem c7_upstream_errors_fatal_witness :
    ((handlerCore cfgOk wList500 ctx0 "ev").result =
      .error (.api { status := 500, body := "boom" }) ∧
     ∀ s p pa ns m,
       ExtCall.proxyRequest s p pa ns m ∉ (handlerCore cfgOk wList500 ctx0 "ev").calls) ∧
    (handlerCore cfgOk wProxy502 ctx0 "ev").result =
      .error (.api { status := 502, body := "bad gateway" }) :=
  ⟨(c7_upstream_errors_fatal cfgOk wList500 ctx0 "ev").1 (by decide),
   (c7_upstream_errors_fatal cfgOk wProxy502 ctx0 "ev").2.1 "hello-svc"
     (by decide) (by decide) (by decide) (by decide)⟩

/-- C8: the service listing returns exactly the names of the services in
the namespace — the empty list for a namespace with no services — and a
namespace-not-found condition surfaces as an error, never as an empty
result. -/
theorem c8_list_services_exact (w : KubeWorld) (ns : Option String) :
    (is2xx w.listStatus = true →
      _list_namespaced_services w ns =
        .ok (w.listItems.map V1Service.metadata_name) ∧
      ∀ e, _list_namespaced_services w ns ≠ .error e) ∧
    (is2xx w.listStatus = false →
      _list_namespaced_services w ns =
        .error { status := w.listStatus, body := w.listBody }) := by
  constructor
  · intro h2
    refine ⟨list_services_ok w ns h2, ?_⟩
    intro e he
    rw [list_services_ok w ns h2] at he
    cases he
  · exact list_services_error w ns

theorem c8_list_services_exact_witness :
    _list_namespaced_services wAB (some "default") = .ok ["a", "b"] ∧
    _list_namespaced_services wEmptyNs (some "default") = .ok [] ∧
    (∀ e, _list_namespaced_services wEmptyNs (some "default") ≠ .error e) ∧
    _list_namespaced_services w404 (some "missing") =
      .error { status := 404, body := "namespace not found" } :=
  ⟨((c8_list_services_exact wAB (some "default")).1 (by decide)).1,
   ((c8_list_services_exact wEmptyNs (some "default")).1 (by decide)).1,
   ((c8_list_services_exact wEmptyNs (some "default")).1 (by decide)).2,
   (c8_list_services_exact w404 (some "missing")).2 (by decide)⟩

/-- C9: whenever an optional configuration variable is absent from the
environment, the handler uses its default: region eu-central-1, port 8080,
method GET, path hello, timeout 30 seconds. -/
theorem c9_defaults (env : List (String × String)) (cfg : LambdaConfig)
    (hok : readConfig env = .ok cfg) :
    (envGet env CLUSTER_REGION_ENV = none → cfg.cluster_region = "eu-central-1") ∧
    (envGet env SERVICE_PORT_ENV = none → cfg.port = 8080) ∧
    (envGet env SERVICE_REQUEST_METHOD_ENV = none → cfg.request_method = "GET") ∧
    (envGet env SERVICE_REQUEST_PATH_ENV = none → cfg.request_path = "hello") ∧
    (envGet env SERVICE_REQUEST_TIMEOUT_ENV = none → cfg.request_timeout = 30) := by
  unfold readConfig at hok
  cases hp : envGet env SERVICE_PORT_ENV with
  | none =>
      rw [hp] at hok
      cases ht : envGet env SERVICE_REQUEST_TIMEOUT_ENV with
      | none =>
          rw [ht] at hok
          dsimp only at hok
          injection hok with hcfg
          subst hcfg
          refine ⟨?_, ?_, ?_, ?_, ?_⟩ <;> intro h <;>
            simp_all [DEFAULT_REGION, DEFAULT_SERVICE_PORT,
              DEFAULT_SERVICE_REQUEST_METHOD, DEFAULT_SERVICE_REQUEST_PATH,
              DEFAULT_SERVICE_REQUEST_TIMEOUT]
      | some ts =>
          rw [ht] at hok
          dsimp only at hok
          cases hts : pyInt ts with
          | none =>
              rw [hts] at hok
              dsimp only at hok
              cases hok
          | some tn =>
              rw [hts] at hok
              dsimp only at hok
              injection hok with hcfg
              subst hcfg
              refine ⟨?_, ?_, ?_, ?_, ?_⟩ <;> intro h <;>
                simp_all [DEFAULT_REGION, DEFAULT_SERVICE_PORT,
                  DEFAULT_SERVICE_REQUEST_METHOD, DEFAULT_SERVICE_REQUEST_PATH,
                  DEFAULT_SERVICE_REQUEST_TIMEOUT]
  | some ps =>
      rw [hp] at hok
      dsimp only at hok
      cases hps : pyInt ps with
      | none =>
          rw [hps] at hok
          dsimp only at hok
          cases hok
      | some pn =>
          rw [hps] at hok
          cases ht : envGet env SERVICE_REQUEST_TIMEOUT_ENV with
          | none =>
              rw [ht] at hok
              dsimp only at hok
              injection hok with hcfg
              subst hcfg
              refine ⟨?_, ?_, ?_, ?_, ?_⟩ <;> intro h <;>
                simp_all [DEFAULT_REGION, DEFAULT_SERVICE_PORT,
                  DEFAULT_SERVICE_REQUEST_METHOD, DEFAULT_SERVICE_REQUEST_PATH,
                  DEFAULT_SERVICE_REQUEST_TIMEOUT]
          | some ts =>
              rw [ht] at hok
              dsimp only at hok
              cases hts : pyInt ts with
              | none =>
                  rw [hts] at hok
                  dsimp only at hok
                  cases hok
              | some tn =>
                  rw [hts] at hok
                  dsimp only at hok
                  injection hok with hcfg
                  subst hcfg
                  refine ⟨?_, ?_, ?_, ?_, ?_⟩ <;> intro h <;>
                    simp_all [DEFAULT_REGION, DEFAULT_SERVICE_PORT,
                      DEFAULT_SERVICE_REQUEST_METHOD, DEFAULT_SERVICE_REQUEST_PATH,
                      DEFAULT_SERVICE_REQUEST_TIMEOUT]

theorem c9_defaults_witness :
    readConfig ([] : List (String × String)) = .ok cfgDefault ∧
    cfgDefault.cluster_region = "eu-central-1" ∧ cfgDefault.port = 8080 ∧
    cfgDefault.request_method = "GET" ∧ cfgDefault.request_path = "hello" ∧
    cfgDefault.request_timeout = 30 :=
  ⟨by decide,
   (c9_defaults [] cfgDefault (by decide)).1 rfl,
   (c9_defaults [] cfgDefault (by decide)).2.1 rfl,
   (c9_defaults [] cfgDefault (by decide)).2.2.1 rfl,
   (c9_defaults [] cfgDefault (by decide)).2.2.2.1 rfl,
   (c9_defaults [] cfgDefault (by decide)).2.2.2.2 rfl⟩

/-- C10: the handler returns a shaped response only when the proxied
status is exactly 200 — and then both the top-level status_code field and
the nested response status are 200 — while a 2xx proxied status other
than 200 makes the assert on line 215 fail instead of returning. -/
theorem c10_only_200_returns (cfg : LambdaConfig) (w : KubeWorld)
    (ctx : LambdaContext) (event : String) :
    (∀ r, (handlerCore cfg w ctx event).result = .ok r →
      w.proxyStatus = 200 ∧ r.status_code = 200 ∧ r.response_status = 200) ∧
    (∀ s, cfg.service = some s →
      is2xx w.listStatus = true →
      s ∈ w.listItems.map V1Service.metadata_name →
      is2xx w.proxyStatus = true → w.proxyStatus ≠ 200 →
      (handlerCore cfg w ctx event).result = .error .assertionError) := by
  constructor
  · intro r hr
    cases hl : _list_namespaced_services w cfg.nspace with
    | error err =>
        rw [handlerCore_list_error cfg w ctx event err hl] at hr
        cases hr
    | ok available =>
        cases hs : cfg.service with
        | none =>
            rw [handlerCore_service_none cfg w ctx event available hl hs] at hr
            cases hr
        | some s0 =>
            by_cases hin : s0 ∈ available
            · cases hp : _proxy_http_request_kubernetes_service w s0 cfg.port
                  cfg.request_path cfg.nspace cfg.request_method [] event
                  cfg.request_timeout with
              | error err =>
                  rw [handlerCore_proxy_error cfg w ctx event available s0 err
                    hl hs hin hp] at hr
                  cases hr
              | ok resp =>
                  rw [handlerCore_proxy_ok cfg w ctx event available s0 resp
                    hl hs hin hp] at hr
                  have hresp : resp.status = w.proxyStatus := by
                    unfold _proxy_http_request_kubernetes_service call_api at hp
                    split at hp
                    · injection hp with he
                      rw [← he]
                    · cases hp
                  dsimp only at hr
                  by_cases h200 : resp.status = 200
                  · rw [if_pos h200] at hr
                    injection hr with hrec
                    subst hrec
                    exact ⟨hresp ▸ h200, rfl, h200⟩
                  · rw [if_neg h200] at hr
                    cases hr
            · rw [handlerCore_service_absent cfg w ctx event available s0
                hl hs hin] at hr
              cases hr
  · intro s hs h2 hmem hp2 hne
    rw [handlerCore_proxy_ok cfg w ctx event _ s _
      (list_services_ok w cfg.nspace h2) hs hmem
      (proxy_request_ok w s cfg.port cfg.request_path cfg.nspace
        cfg.request_method [] event cfg.request_timeout hp2)]
    dsimp only
    rw [if_neg hne]

theorem c10_only_200_returns_witness :
    (handlerCore cfgOk wOk ctx0 "ev").result =
      .ok { lambda_request_id := "req-1", lambda_arn := "arn-1"
          , status_code := 200, event := "ev"
          , response_status := 200, response_data := "ok" } ∧
    wOk.proxyStatus = 200 ∧
    (handlerCore cfgOk wProxy201 ctx0 "ev").result = .error .assertionError :=
  ⟨by decide,
   ((c10_only_200_returns cfgOk wOk ctx0 "ev").1
     { lambda_request_id := "req-1", lambda_arn := "arn-1"
     , status_code := 200, event := "ev"
     , response_status := 200, response_data := "ok" } (by decide)).1,
   (c10_only_200_returns cfgOk wProxy201 ctx0 "ev").2 "hello-svc"
     (by decide) (by decide) (by decide) (by decide) (by decide)⟩

end EksLambda
